import Mathlib

/-!
Verification of the Smart Plumbing System (SPS) analytics core.

The TypeScript analytics module (`analyzeFlowOverTime`, `compareFlowAcrossPipes`,
`learnFlowPatterns`, `calculatePipeRiskScore`, `checkFlowAnomaly`,
`calculateFlowVariance`, `upsertFlowPattern`) is embedded shallowly:

* machine numbers (`number`) become exact rationals `ℚ`; integer columns become `ℤ`/`ℕ`;
* database reads become explicit list/option parameters, and database writes become
  explicit state values returned by the embedded functions;
* `Math.sqrt` only ever feeds strict comparisons, so each comparison is embedded by its
  exact square-comparison equivalent over `ℚ` (documented at each definition);
* `Date` accessors (`getHours`, `getDay`) are embedded by their epoch-arithmetic
  definitions at UTC offset zero (a fixed offset changes no statement proved here).
-/

namespace SPS

/-- JS `Math.round`: round half toward positive infinity. -/
def jsRound (q : ℚ) : ℤ := Int.floor (q + 1/2)

/-- `Math.round (Math.sqrt v)` for `v ≥ 0`, computed exactly.
With `s := Nat.sqrt ⌊4v⌋` we have `s² ≤ 4v < (s+1)²`, and `(s+1)/2` is the
half-up rounding of `√v`: for odd `s = 2k−1` this gives `k` with
`(2k−1)² ≤ 4v < (2k)²`, and for even `s = 2k` it gives `k` with `4v < (2k+1)²`. -/
def roundSqrt (v : ℚ) : ℕ := (Nat.sqrt (Int.floor (4 * v)).toNat + 1) / 2

/-- Embeds the JS comparison `Math.sqrt v > t` for `v ≥ 0`:
`√v > t` iff `t < 0` (a square root is never negative) or `t² < v`. -/
def sqrtGt (v t : ℚ) : Bool := decide (t < 0) || decide (t ^ 2 < v)

/-- Embeds the JS comparison `Math.sqrt variance / avg > 0.5` used for the
coefficient of variation (`variance ≥ 0` always). For `avg > 0` it is
`variance > avg²/4`. For `avg = 0` JS yields `NaN` (comparison false) when
`variance = 0` and `+Infinity` (comparison true) otherwise. For `avg < 0`
the quotient is non-positive, so the comparison is false. -/
def covGtHalf (variance avg : ℚ) : Bool :=
  if 0 < avg then decide (avg ^ 2 < 4 * variance)
  else decide (avg = 0 ∧ variance ≠ 0)

/-- `new Date(ts).getHours()` at UTC offset zero. -/
def jsGetHours (ts : ℤ) : ℕ := ((ts.fdiv 3600000) % 24).toNat

/-- `new Date(ts).getDay()` at UTC offset zero (epoch day zero was a Thursday, day 4). -/
def jsGetDay (ts : ℤ) : ℕ := ((ts.fdiv 86400000 + 4) % 7).toNat

/-- Arithmetic mean of an integer list as an exact rational
(`xs.reduce((a,b) => a+b, 0) / xs.length`). -/
def mean (xs : List ℤ) : ℚ := (xs.sum : ℚ) / (xs.length : ℚ)

/-- Population variance of an integer list
(`xs.reduce((s,x) => s + (x-avg)^2, 0) / xs.length`). -/
def variance (xs : List ℤ) : ℚ :=
  ((xs.map (fun x => ((x : ℚ) - mean xs) ^ 2)).sum) / (xs.length : ℚ)

/-- Arithmetic mean of a rational list. -/
def meanQ (xs : List ℚ) : ℚ := xs.sum / (xs.length : ℚ)

/-- Population variance of a rational list. -/
def varianceQ (xs : List ℚ) : ℚ :=
  ((xs.map (fun x => (x - meanQ xs) ^ 2)).sum) / (xs.length : ℚ)

/-- `Math.min(...xs)` on a nonempty integer list (groups passed in are never empty). -/
def listMinZ (xs : List ℤ) : ℤ :=
  match xs with
  | [] => 0
  | x :: rest => rest.foldl min x

/-- `Math.max(...xs)` on a nonempty integer list. -/
def listMaxZ (xs : List ℤ) : ℤ :=
  match xs with
  | [] => 0
  | x :: rest => rest.foldl max x

/-! ## Data model (drizzle/schema.ts) -/

/-- `sensors.status` enum. -/
inductive SensorStatus
  | active
  | leak
  | warning
  | offline
deriving DecidableEq, Repr

/-- `FlowAnalysisResult.status` union type. -/
inductive AnalysisStatus
  | normal
  | warning
  | leak
  | blockage
deriving DecidableEq, Repr

/-- `severity` union type. -/
inductive Severity
  | low
  | medium
  | high
  | critical
deriving DecidableEq, Repr

/-- `sensors` row (the fields the analytics code reads). -/
structure Sensor where
  id : ℕ
  name : String
  location : String
  pipeType : String
  status : SensorStatus
deriving DecidableEq, Repr

/-- `flowReadings` row: `flowRate` is liters/minute × 100, `pressure` PSI × 100. -/
structure FlowReading where
  sensorId : ℕ
  flowRate : ℤ
  pressure : ℤ
  timestamp : ℤ
deriving DecidableEq, Repr

/-- `flowPatterns` row: learned per-(sensor, hour, weekday) baseline. -/
structure FlowPattern where
  sensorId : ℕ
  hourOfDay : ℕ
  dayOfWeek : ℕ
  avgFlowRate : ℤ
  minFlowRate : ℤ
  maxFlowRate : ℤ
  stdDeviation : ℤ
  sampleCount : ℕ
deriving DecidableEq, Repr

/-- Result of `checkFlowAnomaly`. -/
structure AnomalyCheckResult where
  isAnomaly : Bool
  deviation : ℚ
  expectedRange : Option (ℚ × ℚ)
deriving DecidableEq, Repr

/-- Result of `analyzeFlowOverTime`. -/
structure FlowAnalysisResult where
  sensorId : ℕ
  status : AnalysisStatus
  confidence : ℤ
  message : String
  severity : Severity
  factors : List String
deriving DecidableEq, Repr

/-- A row of `getAggregatedFlowData` (SQL aggregates are exact rationals). -/
structure AggregatedFlowRow where
  sensorId : ℕ
  avgFlowRate : ℚ
  minFlowRate : ℚ
  maxFlowRate : ℚ
  avgPressure : ℚ
  readingCount : ℕ
deriving DecidableEq, Repr

/-- Result of `calculateFlowVariance`. The source also carries
`stdDev = Math.sqrt variance`; its only use is the comparison
`|x − avgFlow| > 2·stdDev`, embedded below as `(x − avgFlow)² > 4·variance`. -/
structure FlowVarianceData where
  avgFlow : ℚ
  variance : ℚ
  sensorData : List AggregatedFlowRow
deriving DecidableEq, Repr

/-- Result of `compareFlowAcrossPipes`. -/
structure ComparisonResult where
  isSystemWideIssue : Bool
  affectedSensors : List ℕ
  diagnosis : String
deriving DecidableEq, Repr

/-- `PredictionResult` returned by `calculatePipeRiskScore`. -/
structure PredictionResult where
  sensorId : ℕ
  sensorName : String
  riskScore : ℚ
  leakProbability : ℚ
  blockageProbability : ℚ
  factors : List String
  recommendation : String
deriving DecidableEq, Repr

/-- The `InsertPipeRiskScore` row passed to `db.upsertPipeRiskScore`
(the source serializes `factors` with `JSON.stringify`; kept as the list). -/
structure StoredPipeRiskScore where
  sensorId : ℕ
  riskScore : ℚ
  leakProbability : ℚ
  blockageProbability : ℚ
  factors : List String
  lastAnalyzedAt : ℤ
deriving DecidableEq, Repr

/-! ## db.ts query helpers used by the analytics core -/

/-- `getFlowPattern`: `select … where sensorId, hourOfDay, dayOfWeek … limit 1`,
embedded as the first matching row of the pattern store. -/
def getFlowPattern (patterns : List FlowPattern) (sensorId hourOfDay dayOfWeek : ℕ) :
    Option FlowPattern :=
  (patterns.filter (fun p =>
    p.sensorId == sensorId && p.hourOfDay == hourOfDay && p.dayOfWeek == dayOfWeek)).head?

/-- `checkFlowAnomaly(sensorId, currentFlowRate)`: the current hour/weekday
(`now.getHours()`, `now.getDay()`) are passed explicitly. -/
def checkFlowAnomaly (patterns : List FlowPattern) (sensorId hourOfDay dayOfWeek : ℕ)
    (currentFlowRate : ℚ) : AnomalyCheckResult :=
  match getFlowPattern patterns sensorId hourOfDay dayOfWeek with
  | none => ⟨false, 0, none⟩
  | some pattern =>
    if pattern.sampleCount < 10 then ⟨false, 0, none⟩
    else
      let expectedMin : ℚ := (pattern.avgFlowRate : ℚ) - 2 * (pattern.stdDeviation : ℚ)
      let expectedMax : ℚ := (pattern.avgFlowRate : ℚ) + 2 * (pattern.stdDeviation : ℚ)
      let isAnomaly := decide (currentFlowRate < expectedMin) ||
        decide (currentFlowRate > expectedMax)
      ⟨isAnomaly, currentFlowRate - (pattern.avgFlowRate : ℚ),
        some (expectedMin / 100, expectedMax / 100)⟩

/-! ## aiAnalysis.ts: cross-sensor comparison -/

/-- `calculateFlowVariance()` over the aggregated 5-minute rows. -/
def calculateFlowVariance (aggregatedData : List AggregatedFlowRow) :
    Option FlowVarianceData :=
  if aggregatedData.length < 2 then none
  else
    let flowRates := aggregatedData.map (·.avgFlowRate)
    some ⟨meanQ flowRates, varianceQ flowRates, aggregatedData⟩

/-- `compareFlowAcrossPipes()`. The outlier test `|x − avgFlow| > stdDev * 2`
is embedded as `(x − avgFlow)² > 4·variance` (equivalent: both sides of the
source comparison are non-negative). -/
def compareFlowAcrossPipes (aggregatedData : List AggregatedFlowRow) : ComparisonResult :=
  match calculateFlowVariance aggregatedData with
  | none => ⟨false, [], "Insufficient data for comparison"⟩
  | some fv =>
    let lowFlowSensors := fv.sensorData.filter (fun s =>
      decide (s.avgFlowRate < fv.avgFlow * (1/2)))
    let isSystemWide :=
      decide ((lowFlowSensors.length : ℚ) > (fv.sensorData.length : ℚ) * (7/10))
    if isSystemWide then
      ⟨true, fv.sensorData.map (·.sensorId),
        "System-wide low flow detected. Possible causes: low water tank level, main supply issue, or scheduled maintenance."⟩
    else
      let outliers := fv.sensorData.filter (fun s =>
        decide ((s.avgFlowRate - fv.avgFlow) ^ 2 > 4 * fv.variance))
      if outliers.length > 0 then
        ⟨false, outliers.map (·.sensorId),
          "Localized flow anomaly detected in " ++ toString outliers.length ++
            " sensor(s). Possible leak or blockage in specific pipe sections."⟩
      else
        ⟨false, [], "All sensors operating within normal parameters."⟩

/-! ## aiAnalysis.ts: windowed analyzer -/

/-- `generateAnalysisMessage(status, factors, location)`. -/
def generateAnalysisMessage (status : AnalysisStatus) (factors : List String)
    (location : String) : String :=
  let factorText :=
    if factors.length > 0 then " Factors: " ++ String.intercalate ", " factors ++ "."
    else ""
  match status with
  | .leak => "Leak detected at " ++ location ++ "." ++ factorText
  | .blockage => "Possible blockage detected at " ++ location ++ "." ++ factorText
  | .warning =>
      "Abnormal flow pattern at " ++ location ++ ". Monitoring recommended." ++ factorText
  | .normal => "Normal operation at " ++ location ++ "."

/-- `analyzeFlowOverTime(sensorId, windowMinutes)`. The database reads become
parameters: `readings` is `getFlowReadingsInTimeRange` over the window, `sensor`
is `getSensorById`, and `patterns`/`hourOfDay`/`dayOfWeek` feed the
`db.checkFlowAnomaly` call. The source mutates `status`/`severity`/`confidence`
through four sequential `if` blocks (variance, pressure, blockage, anomaly);
the last assignment wins, embedded by the priority chain blockage > pressure >
variance with the anomaly block applied on top. -/
def analyzeFlowOverTime (sensorId : ℕ) (readings : List FlowReading)
    (sensor : Option Sensor) (patterns : List FlowPattern)
    (hourOfDay dayOfWeek : ℕ) : FlowAnalysisResult :=
  match sensor with
  | none => ⟨sensorId, .normal, 0, "Sensor not found", .low, ["sensor_not_found"]⟩
  | some sen =>
    if readings.length < 3 then
      ⟨sensorId, .normal, 50, "Insufficient data for analysis", .low, ["insufficient_data"]⟩
    else
      let flowRates := readings.map (·.flowRate)
      let pressures := readings.map (·.pressure)
      let avgFlow := mean flowRates
      let avgPressure := mean pressures
      let flowVariance := variance flowRates
      let anomalyCheck := checkFlowAnomaly patterns sensorId hourOfDay dayOfWeek avgFlow
      -- flowStdDev > avgFlow * 0.3
      let varCond := sqrtGt flowVariance (avgFlow * (3/10))
      -- avgPressure < 3000 (below 30 PSI)
      let pressCond := decide (avgPressure < 3000)
      -- avgFlow < 100 && avgPressure > 5000
      let blockCond := decide (avgFlow < 100) && decide (avgPressure > 5000)
      let anomCond := anomalyCheck.isAnomaly
      let factors :=
        (if varCond then ["high_flow_variance"] else []) ++
        (if pressCond then ["low_pressure"] else []) ++
        (if blockCond then ["possible_blockage"] else []) ++
        (if anomCond then ["pattern_deviation"] else [])
      let status0 : AnalysisStatus :=
        if blockCond then .blockage
        else if pressCond then .leak
        else if varCond then .warning
        else .normal
      let severity0 : Severity :=
        if blockCond then .medium
        else if pressCond then .high
        else if varCond then .medium
        else .low
      let confidence0 : ℤ := if blockCond then 75 else if pressCond then 85 else 70
      let status := if anomCond && decide (status0 = .normal) then .warning else status0
      let severity := if anomCond && decide (status0 = .normal) then .medium else severity0
      let confidence := if anomCond then min (confidence0 + 10) 95 else confidence0
      ⟨sensorId, status, confidence,
        generateAnalysisMessage status factors sen.location, severity, factors⟩

/-! ## aiAnalysis.ts + db.ts: pattern learning -/

/-- The `(sensorId, hourOfDay, dayOfWeek)` bucket key of a pattern row
(the data model keeps one row per bucket). -/
def bucketKey (p : FlowPattern) : ℕ × ℕ × ℕ := (p.sensorId, p.hourOfDay, p.dayOfWeek)


/-- `db.upsertFlowPattern`: `insert … values(pattern) … onDuplicateKeyUpdate`.
Against the declared schema the `onDuplicateKeyUpdate` set clause (replace
`avg/min/max/stdDeviation`, `sampleCount := stored + 1`) is dead code: the
`flowPatterns` table has only the autoincrement `id` primary key and no unique
index on `(sensorId, hourOfDay, dayOfWeek)`, and inserts never supply `id`, so
no unique-key collision can occur and MySQL never fires the update clause.
Every call therefore inserts a fresh row. -/
def upsertFlowPattern (store : List FlowPattern) (row : FlowPattern) : List FlowPattern :=
  store ++ [row]

/-- One step of the reading grouping: push `rate` onto the bucket of `key`,
creating the bucket at the end on first sight (JS `Map` insertion order). -/
def insertReading (groups : List ((ℕ × ℕ) × List ℤ)) (key : ℕ × ℕ) (rate : ℤ) :
    List ((ℕ × ℕ) × List ℤ) :=
  match groups with
  | [] => [(key, [rate])]
  | (k, rs) :: rest =>
    if k = key then (k, rs ++ [rate]) :: rest
    else (k, rs) :: insertReading rest key rate

/-- The grouping loop of `learnFlowPatterns`: key `${date.getDay()}-${date.getHours()}`. -/
def groupByBucket (readings : List FlowReading) : List ((ℕ × ℕ) × List ℤ) :=
  readings.foldl
    (fun gs r => insertReading gs (jsGetDay r.timestamp, jsGetHours r.timestamp) r.flowRate)
    []

/-- The pattern row built for one `(dayOfWeek, hourOfDay)` group of flow rates. -/
def patternOfGroup (sensorId : ℕ) (key : ℕ × ℕ) (flowRates : List ℤ) : FlowPattern :=
  { sensorId := sensorId
    hourOfDay := key.2
    dayOfWeek := key.1
    avgFlowRate := jsRound (mean flowRates)
    minFlowRate := listMinZ flowRates
    maxFlowRate := listMaxZ flowRates
    stdDeviation := (roundSqrt (variance flowRates) : ℤ)
    sampleCount := flowRates.length }

/-- `learnFlowPatterns(sensorId)`: `readings` is `getRecentFlowReadings(sensorId, 100)`;
fewer than 10 readings is a no-op, otherwise each group is upserted into the
pattern store in insertion order. -/
def learnFlowPatterns (sensorId : ℕ) (readings : List FlowReading)
    (store : List FlowPattern) : List FlowPattern :=
  if readings.length < 10 then store
  else
    (groupByBucket readings).foldl
      (fun st g => upsertFlowPattern st (patternOfGroup sensorId g.1 g.2)) store

/-! ## aiAnalysis.ts: risk scoring -/

/-- The recommendation step function of `calculatePipeRiskScore`. -/
def riskRecommendation (riskScore : ℚ) : String :=
  if riskScore > 70 then "Immediate inspection recommended. High risk of failure."
  else if riskScore > 40 then "Schedule preventive maintenance within the next week."
  else if riskScore > 20 then "Monitor closely. Consider inspection during next maintenance cycle."
  else "Continue regular monitoring."

/-- `calculatePipeRiskScore(sensorId)`. Database reads become parameters
(`sensor` = `getSensorById`, `recentReadings` = `getRecentFlowReadings(sensorId, 50)`
most recent first, `patterns` = `getAllFlowPatternsForSensor`); the current wall
clock becomes `hourOfDay`/`dayOfWeek`/`now`. The pair returned is the
`PredictionResult` and the row written via `db.upsertPipeRiskScore` — note the
source stores `leakProbability * 100` and `blockageProbability * 100`. -/
def calculatePipeRiskScore (sensorId : ℕ) (sensor : Option Sensor)
    (recentReadings : List FlowReading) (patterns : List FlowPattern)
    (hourOfDay dayOfWeek : ℕ) (now : ℤ) :
    Option PredictionResult × Option StoredPipeRiskScore :=
  match sensor with
  | none => (none, none)
  | some sen =>
    let flowRates := recentReadings.map (·.flowRate)
    let avg := mean flowRates
    let varFlow := variance flowRates
    let pressures := recentReadings.map (·.pressure)
    let avgPressure := mean pressures
    -- Factor 1: current status
    let leakStatus := decide (sen.status = .leak)
    let warnStatus := decide (sen.status = .warning)
    -- Factor 2: flow variance and pressure over ≥ 10 recent readings
    let enough := decide (recentReadings.length ≥ 10)
    let covCond := enough && covGtHalf varFlow avg
    let pressCond := enough && decide (avgPressure < 3500)
    -- Factor 3: deviation of the newest reading from the current-time bucket
    let currentPattern := patterns.find? (fun p =>
      p.hourOfDay == hourOfDay && p.dayOfWeek == dayOfWeek)
    let devCond :=
      match currentPattern, recentReadings with
      | some p, r0 :: _ => decide (|r0.flowRate - p.avgFlowRate| > p.stdDeviation * 2)
      | _, _ => false
    -- Factor 4: pipe type
    let mainCond := sen.pipeType == "main"
    let riskScore0 : ℚ :=
      (if leakStatus then 50 else if warnStatus then 25 else 0) +
      (if covCond then 20 else 0) + (if pressCond then 15 else 0) +
      (if devCond then 15 else 0) + (if mainCond then 5 else 0)
    let leakProb0 : ℚ :=
      (if leakStatus then 80 else if warnStatus then 30 else 0) +
      (if covCond then 25 else 0) + (if pressCond then 20 else 0)
    let blockProb0 : ℚ := 0
    let factors :=
      (if leakStatus then ["Active leak detected"]
        else if warnStatus then ["Warning status active"] else []) ++
      (if covCond then ["High flow variability"] else []) ++
      (if pressCond then ["Below-normal pressure"] else []) ++
      (if devCond then ["Significant pattern deviation"] else []) ++
      (if mainCond then ["Main pipe (higher impact)"] else [])
    let riskScore := min riskScore0 100
    let leakProbability := min leakProb0 100
    let blockageProbability := min blockProb0 100
    (some ⟨sensorId, sen.name, riskScore, leakProbability, blockageProbability, factors,
        riskRecommendation riskScore⟩,
      some ⟨sensorId, riskScore, leakProbability * 100, blockageProbability * 100, factors,
        now⟩)

/-! ## Sensor/alert state and the analyzer side effect -/

/-- `alerts` row (the fields written on creation). -/
structure AlertRow where
  sensorId : ℕ
  type : String
  severity : Severity
  message : String
  location : String
  isRead : Bool
  isResolved : Bool
  timestamp : ℤ
deriving DecidableEq, Repr

/-- The mutable records the windowed analyzer touches: the `sensors` table
and the `alerts` table. -/
structure SystemState where
  sensors : List Sensor
  alerts : List AlertRow
deriving DecidableEq, Repr

/-- `db.getSensorById`: `select … where eq(id) limit 1`. -/
def getSensorById (sensors : List Sensor) (id : ℕ) : Option Sensor :=
  sensors.find? (fun s => s.id == id)

/-- `db.updateSensorStatus`: `update sensors set status where eq(id)`. -/
def updateSensorStatus (sensors : List Sensor) (id : ℕ) (status : SensorStatus) :
    List Sensor :=
  sensors.map (fun s => if s.id == id then { s with status := status } else s)

/-- `db.createAlert`: append a row to the alerts table. -/
def createAlert (alerts : List AlertRow) (a : AlertRow) : List AlertRow := alerts ++ [a]

/-- Modelled from the spec: the sensor status stored for an anomalous
classification. The `sensors.status` enum has no `blockage` value, so a
blockage classification is stored as `warning` (the analyzer-driven escalating
state of the spec's state machine); a leak classification is stored as `leak`. -/
def toSensorStatus : AnalysisStatus → SensorStatus
  | .leak => .leak
  | .blockage => .warning
  | .warning => .warning
  | .normal => .active

/-- The `alerts.type` enum value for an anomalous classification. -/
def analysisAlertType : AnalysisStatus → String
  | .leak => "leak"
  | .blockage => "blockage"
  | .warning => "anomaly"
  | .normal => "anomaly"

/-- Modelled from the spec: the monitoring endpoint that wraps
`analyzeFlowOverTime` with its side effect. The tRPC router section that
performs it is missing from the sources (only a truncated router tail is
present). Per the spec, on a classification in `{leak, blockage}` that differs
from the sensor's stored status an `Alert` is created and the `Sensor` status
is updated; otherwise nothing is written. -/
def analyzeWindowWithEffects (sensorId : ℕ) (readings : List FlowReading)
    (patterns : List FlowPattern) (hourOfDay dayOfWeek : ℕ) (now : ℤ)
    (st : SystemState) : FlowAnalysisResult × SystemState :=
  let sensor := getSensorById st.sensors sensorId
  let result := analyzeFlowOverTime sensorId readings sensor patterns hourOfDay dayOfWeek
  match sensor with
  | none => (result, st)
  | some sen =>
    if (result.status = .leak ∨ result.status = .blockage) ∧
        toSensorStatus result.status ≠ sen.status then
      (result,
        ⟨updateSensorStatus st.sensors sensorId (toSensorStatus result.status),
          createAlert st.alerts
            ⟨sensorId, analysisAlertType result.status, result.severity, result.message,
              sen.location, false, false, now⟩⟩)
    else (result, st)

/-! ## Concrete fixtures used by counterexamples and witnesses -/

/-- An active branch-pipe sensor. -/
def activeSensor : Sensor := ⟨1, "Main Pipe", "Upper floor", "branch", .active⟩

/-- A sensor currently in leak status. -/
def leakSensor : Sensor := ⟨1, "Main Pipe", "Upper floor", "branch", .leak⟩

/-- A reading of sensor 1 with the given flow and pressure at time 0. -/
def mkReading (flow pressure : ℤ) : FlowReading := ⟨1, flow, pressure, 0⟩

/-- Three readings with pressure 1800 (18 PSI) and steady flow 500. -/
def lowPressureReadings : List FlowReading :=
  [mkReading 500 1800, mkReading 500 1800, mkReading 500 1800]

/-- A learned bucket for (sensor 1, hour 0, day 0): avg 200, stddev 50, 10 samples. -/
def bucketPattern : FlowPattern := ⟨1, 0, 0, 200, 100, 300, 50, 10⟩

/-- A learned bucket far away from the window flow of `lowPressureReadings`:
avg 10000, stddev 100, 10 samples. -/
def farPattern : FlowPattern := ⟨1, 0, 0, 10000, 9000, 11000, 100, 10⟩

/-- An aggregated five-minute row with the given per-sensor mean flow. -/
def mkAggRow (i : ℕ) (f : ℚ) : AggregatedFlowRow := ⟨i, f, f, f, 4000, 5⟩

/-- The spec scenario: three sensors with mean flows 100, 105 and 98. -/
def similarFlowRows : List AggregatedFlowRow :=
  [mkAggRow 1 100, mkAggRow 2 105, mkAggRow 3 98]

/-- Ten readings of sensor 1 with zero mean flow but nonzero flow variance. -/
def zeroMeanReadings : List FlowReading :=
  [mkReading (-100) 4000, mkReading 100 4000, mkReading 0 4000, mkReading 0 4000,
    mkReading 0 4000, mkReading 0 4000, mkReading 0 4000, mkReading 0 4000,
    mkReading 0 4000, mkReading 0 4000]

/-- Twelve hourly readings of sensor 1 (enough history for pattern learning). -/
def learnReadings : List FlowReading :=
  (List.range 12).map (fun i => ⟨1, 100 + (i : ℤ), 4000, 3600000 * (i : ℤ)⟩)

/-- A one-sensor system state holding `activeSensor` and no alerts. -/
def initialState : SystemState := ⟨[activeSensor], []⟩

/-! ## C4: anomaly checker cold-start policy -/

/-- C4: for every pattern store, sensor and current flow, if the matching
FlowPattern bucket is absent or has `sampleCount < 10`, `checkFlowAnomaly`
returns `isAnomaly = false`, `deviation = 0`, `expectedRange = none`; in
particular `isAnomaly = true` is never reported without a learned baseline. -/
theorem checkFlowAnomaly_insufficient_history (patterns : List FlowPattern)
    (sensorId hourOfDay dayOfWeek : ℕ) (currentFlowRate : ℚ)
    (h : ∀ p, getFlowPattern patterns sensorId hourOfDay dayOfWeek = some p →
      p.sampleCount < 10) :
    checkFlowAnomaly patterns sensorId hourOfDay dayOfWeek currentFlowRate =
      ⟨false, 0, none⟩ := by
  unfold checkFlowAnomaly
  cases hp : getFlowPattern patterns sensorId hourOfDay dayOfWeek with
  | none => rfl
  | some p => simp [h p hp]

/-- Witness for C4: a concrete bucket with `sampleCount = 9`. -/
theorem checkFlowAnomaly_insufficient_history_witness :
    checkFlowAnomaly [⟨1, 0, 0, 200, 100, 300, 50, 9⟩] 1 0 0 500 = ⟨false, 0, none⟩ :=
  checkFlowAnomaly_insufficient_history _ 1 0 0 500 (by decide)

/-! ## C5: anomaly checker on a learned bucket -/

/-- C5 counterexample: for the bucket with `avgFlowRate = 200`, `stdDeviation = 50`
and `sampleCount = 10`, the claim demands `expectedRange = [100, 300]`, but
`checkFlowAnomaly` returns the range divided by 100, namely `(1, 3)`. -/
theorem checkFlowAnomaly_expectedRange_scaled :
    (checkFlowAnomaly [bucketPattern] 1 0 0 500).expectedRange = some (1, 3) ∧
      some ((1 : ℚ), (3 : ℚ)) ≠
        some ((200 : ℚ) - 2 * 50, (200 : ℚ) + 2 * 50) := by
  constructor
  · simp [checkFlowAnomaly, getFlowPattern, bucketPattern]
    norm_num
  · simp
    norm_num

/-- C5 amended: on a bucket with `sampleCount ≥ 10`, `isAnomaly` holds exactly
when the current flow lies outside `[avg − 2·stddev, avg + 2·stddev]`,
`deviation = currentFlow − avg`, and `expectedRange` is that interval with both
endpoints divided by 100. -/
theorem checkFlowAnomaly_learned_bucket (patterns : List FlowPattern)
    (sensorId hourOfDay dayOfWeek : ℕ) (currentFlowRate : ℚ) (p : FlowPattern)
    (hp : getFlowPattern patterns sensorId hourOfDay dayOfWeek = some p)
    (hc : 10 ≤ p.sampleCount) :
    checkFlowAnomaly patterns sensorId hourOfDay dayOfWeek currentFlowRate =
      ⟨decide (currentFlowRate < (p.avgFlowRate : ℚ) - 2 * (p.stdDeviation : ℚ)) ||
          decide (currentFlowRate > (p.avgFlowRate : ℚ) + 2 * (p.stdDeviation : ℚ)),
        currentFlowRate - (p.avgFlowRate : ℚ),
        some (((p.avgFlowRate : ℚ) - 2 * (p.stdDeviation : ℚ)) / 100,
          ((p.avgFlowRate : ℚ) + 2 * (p.stdDeviation : ℚ)) / 100)⟩ := by
  unfold checkFlowAnomaly
  rw [hp]
  simp [Nat.not_lt.mpr hc]

/-- Witness for C5's amended statement at `bucketPattern` and current flow 500. -/
theorem checkFlowAnomaly_learned_bucket_witness :
    checkFlowAnomaly [bucketPattern] 1 0 0 500 = ⟨true, 300, some (1, 3)⟩ := by
  have h := checkFlowAnomaly_learned_bucket [bucketPattern] 1 0 0 500 bucketPattern
    (by rfl) (by decide)
  rw [h]
  simp [bucketPattern]
  norm_num

/-! ## C3: windowed analyzer with fewer than three readings -/

/-- C3: for every known sensor with fewer than 3 readings in the window,
`analyzeFlowOverTime` returns status normal, confidence 50 and the factor list
exactly `["insufficient_data"]`. -/
theorem analyzeFlowOverTime_insufficient_data (sensorId : ℕ)
    (readings : List FlowReading) (sen : Sensor) (patterns : List FlowPattern)
    (hourOfDay dayOfWeek : ℕ) (hlen : readings.length < 3) :
    analyzeFlowOverTime sensorId readings (some sen) patterns hourOfDay dayOfWeek =
      ⟨sensorId, .normal, 50, "Insufficient data for analysis", .low,
        ["insufficient_data"]⟩ := by
  unfold analyzeFlowOverTime
  simp [hlen]

/-- Witness for C3: two readings only. -/
theorem analyzeFlowOverTime_insufficient_data_witness :
    analyzeFlowOverTime 1 [mkReading 500 4000, mkReading 500 4000] (some activeSensor)
        [] 0 0 =
      ⟨1, .normal, 50, "Insufficient data for analysis", .low, ["insufficient_data"]⟩ :=
  analyzeFlowOverTime_insufficient_data 1 _ activeSensor [] 0 0 (by decide)

/-! ## C10: windowed analyzer on an unknown sensor -/

/-- C10: for every unknown sensor id, `analyzeFlowOverTime` returns status
normal, confidence 0, severity low and the factor list exactly
`["sensor_not_found"]` — distinguishable from the insufficient-data result,
which has confidence 50. -/
theorem analyzeFlowOverTime_sensor_not_found (sensorId : ℕ)
    (readings : List FlowReading) (patterns : List FlowPattern)
    (hourOfDay dayOfWeek : ℕ) :
    analyzeFlowOverTime sensorId readings none patterns hourOfDay dayOfWeek =
      ⟨sensorId, .normal, 0, "Sensor not found", .low, ["sensor_not_found"]⟩ := by
  rfl

/-! ## C2: cross-sensor comparison -/

/-- C2 counterexample: for three sensors with mean flows 100, 105 and 98 the
claim demands `isSystemWideIssue = true` with all three sensors affected, but
`compareFlowAcrossPipes` reports no system-wide issue and no affected sensors —
no sensor's mean flow is below half of the overall mean, and the function never
consults historical norms. -/
theorem compareFlowAcrossPipes_similar_flows_not_system_wide :
    (compareFlowAcrossPipes similarFlowRows).isSystemWideIssue = false ∧
      (compareFlowAcrossPipes similarFlowRows).affectedSensors = [] := by
  norm_num [compareFlowAcrossPipes, calculateFlowVariance, similarFlowRows, mkAggRow,
    meanQ, varianceQ, List.filter]

/-- C2 amended: for aggregated data from at least two sensors, whenever the
fraction of sensors whose mean flow is below half the overall mean exceeds 0.7,
`compareFlowAcrossPipes` classifies the situation as system-wide and lists
every sensor as affected, with the fixed diagnostic message. -/
theorem compareFlowAcrossPipes_system_wide_rule (data : List AggregatedFlowRow)
    (h2 : 2 ≤ data.length)
    (hlow : 7 * data.length < 10 * (data.filter (fun s =>
        decide (s.avgFlowRate < meanQ (data.map (·.avgFlowRate)) * (1/2)))).length) :
    compareFlowAcrossPipes data =
      ⟨true, data.map (·.sensorId),
        "System-wide low flow detected. Possible causes: low water tank level, main supply issue, or scheduled maintenance."⟩ := by
  have hq : ((data.filter (fun s =>
      decide (s.avgFlowRate < meanQ (data.map (·.avgFlowRate)) * (1/2)))).length : ℚ) >
      (data.length : ℚ) * (7/10) := by
    rw [gt_iff_lt, mul_div_assoc']
    rw [div_lt_iff₀ (by norm_num : (0:ℚ) < 10)]
    have h2' : data.length * 7 < (data.filter (fun s =>
        decide (s.avgFlowRate < meanQ (data.map (·.avgFlowRate)) * (1/2)))).length * 10 := by
      omega
    exact_mod_cast h2'
  unfold compareFlowAcrossPipes calculateFlowVariance
  rw [if_neg (by omega)]
  simp only []
  rw [if_pos (decide_eq_true hq)]

/-- Witness for C2's amended rule: four sensors with mean flows 1000, 1, 1, 1 —
three of four (more than 70%) are below half the overall mean. -/
theorem compareFlowAcrossPipes_system_wide_rule_witness :
    compareFlowAcrossPipes [mkAggRow 1 1000, mkAggRow 2 1, mkAggRow 3 1, mkAggRow 4 1] =
      ⟨true, [1, 2, 3, 4],
        "System-wide low flow detected. Possible causes: low water tank level, main supply issue, or scheduled maintenance."⟩ := by
  have h := compareFlowAcrossPipes_system_wide_rule
    [mkAggRow 1 1000, mkAggRow 2 1, mkAggRow 3 1, mkAggRow 4 1]
    (by norm_num)
    (by norm_num [List.filter, meanQ, mkAggRow])
  simpa [mkAggRow] using h

/-! ## C6: windowed analyzer low-pressure rule -/

/-- C6 counterexample: three readings with mean pressure 1800 satisfy the
claim's antecedent, yet when the anomaly checker also flags a pattern deviation
(learned bucket far from the window flow) the returned confidence is 95, not
the claimed 85. -/
theorem analyzeFlowOverTime_low_pressure_confidence_95 :
    lowPressureReadings.length = 3 ∧
      mean (lowPressureReadings.map (·.pressure)) = 1800 ∧
      (analyzeFlowOverTime 1 lowPressureReadings (some activeSensor) [farPattern] 0 0).status
        = .leak ∧
      (analyzeFlowOverTime 1 lowPressureReadings (some activeSensor) [farPattern] 0 0).confidence
        = 95 ∧
      (analyzeFlowOverTime 1 lowPressureReadings (some activeSensor) [farPattern] 0 0).confidence
        ≠ 85 := by
  norm_num [analyzeFlowOverTime, lowPressureReadings, mkReading, activeSensor, farPattern,
    mean, variance, checkFlowAnomaly, getFlowPattern, sqrtGt, List.filter,
    generateAnalysisMessage]
  decide

/-- C6 amended: for every known sensor with at least 3 readings whose mean
pressure is below 3000 (30 PSI), `analyzeFlowOverTime` returns status leak,
severity high and a factor list containing "low_pressure"; the confidence is 85,
except that it is raised to 95 when the anomaly checker also flags a deviation
from the learned pattern. -/
theorem analyzeFlowOverTime_low_pressure (sensorId : ℕ) (readings : List FlowReading)
    (sen : Sensor) (patterns : List FlowPattern) (hourOfDay dayOfWeek : ℕ)
    (hlen : 3 ≤ readings.length)
    (hpress : mean (readings.map (·.pressure)) < 3000) :
    (analyzeFlowOverTime sensorId readings (some sen) patterns hourOfDay dayOfWeek).status
        = .leak ∧
      (analyzeFlowOverTime sensorId readings (some sen) patterns hourOfDay dayOfWeek).severity
        = .high ∧
      "low_pressure" ∈
        (analyzeFlowOverTime sensorId readings (some sen) patterns hourOfDay dayOfWeek).factors ∧
      (analyzeFlowOverTime sensorId readings (some sen) patterns hourOfDay dayOfWeek).confidence
        = if (checkFlowAnomaly patterns sensorId hourOfDay dayOfWeek
            (mean (readings.map (·.flowRate)))).isAnomaly then 95 else 85 := by
  have hp1 : decide (mean (readings.map (·.pressure)) < 3000) = true :=
    decide_eq_true hpress
  have hp2 : decide (mean (readings.map (·.pressure)) > 5000) = false :=
    decide_eq_false (by intro h; exact absurd hpress (by linarith))
  have hnl : ¬ readings.length < 3 := by omega
  simp only [analyzeFlowOverTime, hnl, hp1, hp2, Bool.and_false, if_false, if_true,
    ite_false, ite_true, Bool.false_eq_true, decide_False]
  cases h : (checkFlowAnomaly patterns sensorId hourOfDay dayOfWeek
      (mean (readings.map (·.flowRate)))).isAnomaly <;>
    simp [h, List.mem_append]

/-- Witness for C6's amended statement and the spec scenario: mean pressure
1800 over three readings with no learned patterns yields exactly leak, high,
"low_pressure", confidence 85. -/
theorem analyzeFlowOverTime_low_pressure_witness :
    (analyzeFlowOverTime 1 lowPressureReadings (some activeSensor) [] 0 0).status = .leak ∧
      (analyzeFlowOverTime 1 lowPressureReadings (some activeSensor) [] 0 0).severity = .high ∧
      "low_pressure" ∈
        (analyzeFlowOverTime 1 lowPressureReadings (some activeSensor) [] 0 0).factors ∧
      (analyzeFlowOverTime 1 lowPressureReadings (some activeSensor) [] 0 0).confidence = 85 := by
  have h := analyzeFlowOverTime_low_pressure 1 lowPressureReadings activeSensor [] 0 0
    (by norm_num [lowPressureReadings])
    (by norm_num [mean, lowPressureReadings, mkReading])
  have ha : (checkFlowAnomaly [] 1 0 0
      (mean (lowPressureReadings.map (·.flowRate)))).isAnomaly = false := by rfl
  simpa [ha] using h

/-! ## C1 and C7: risk scorer -/

/-- Helper: with leak status, a non-main pipe, fewer than 10 recent readings
and no learned patterns, the risk scorer returns riskScore 50 and
leakProbability 80 but persists leakProbability 8000. -/
theorem riskScore_leak_status_only (sensorId : ℕ) (sen : Sensor)
    (recentReadings : List FlowReading) (hourOfDay dayOfWeek : ℕ) (now : ℤ)
    (hstatus : sen.status = .leak) (hpipe : sen.pipeType ≠ "main")
    (hlen : recentReadings.length < 10) :
    calculatePipeRiskScore sensorId (some sen) recentReadings [] hourOfDay dayOfWeek now =
      (some ⟨sensorId, sen.name, 50, 80, 0, ["Active leak detected"],
          "Schedule preventive maintenance within the next week."⟩,
        some ⟨sensorId, 50, 8000, 0, ["Active leak detected"], now⟩) := by
  have h10 : ¬ recentReadings.length ≥ 10 := by omega
  have hbeq : (sen.pipeType == "main") = false := by
    simp [hpipe]
  unfold calculatePipeRiskScore
  simp only [hstatus, hbeq, h10, List.find?_nil, decide_True,
    decide_False, Bool.false_and, Bool.and_false, if_true, if_false, ite_true, ite_false]
  norm_num [riskRecommendation]

/-- C1 counterexample: for a sensor in leak status with a single recent
reading, the value persisted through `upsertPipeRiskScore` has
`leakProbability = 8000`, outside `[0, 100]` — the source multiplies the
clamped probabilities by 100 before storing. -/
theorem calculatePipeRiskScore_persists_scaled_probability :
    ((calculatePipeRiskScore 1 (some leakSensor) [mkReading 500 4000] [] 0 0 0).2.map
        (·.leakProbability)) = some 8000 ∧
      ¬ ((8000 : ℚ) ≤ 100) := by
  constructor
  · rw [riskScore_leak_status_only 1 leakSensor [mkReading 500 4000] 0 0 0 rfl
      (by decide) (by decide)]
    rfl
  · norm_num

/-- C1 amended: for every known sensor, the returned riskScore,
leakProbability and blockageProbability all lie in `[0, 100]`, and the
persisted row carries the same riskScore but the probabilities scaled by 100
(hence in `[0, 10000]`, not `[0, 100]`). -/
theorem calculatePipeRiskScore_bounds (sensorId : ℕ) (sen : Sensor)
    (recentReadings : List FlowReading) (patterns : List FlowPattern)
    (hourOfDay dayOfWeek : ℕ) (now : ℤ) :
    ∃ p s, calculatePipeRiskScore sensorId (some sen) recentReadings patterns
        hourOfDay dayOfWeek now = (some p, some s) ∧
      0 ≤ p.riskScore ∧ p.riskScore ≤ 100 ∧
      0 ≤ p.leakProbability ∧ p.leakProbability ≤ 100 ∧
      0 ≤ p.blockageProbability ∧ p.blockageProbability ≤ 100 ∧
      s.riskScore = p.riskScore ∧
      s.leakProbability = p.leakProbability * 100 ∧
      s.blockageProbability = p.blockageProbability * 100 := by
  unfold calculatePipeRiskScore
  refine ⟨_, _, rfl, le_min ?_ (by norm_num), min_le_right _ _,
    le_min ?_ (by norm_num), min_le_right _ _,
    le_min (by norm_num) (by norm_num), min_le_right _ _, rfl, rfl, rfl⟩ <;>
    (split_ifs <;> norm_num)

/-- Helper: with a zero mean flow over the recent readings, the "High flow
variability" factor is applied exactly when at least 10 readings are present
and their flow variance is nonzero, and the returned risk score stays within
`[0, 100]`. -/
theorem riskScore_zero_mean_characterization (sensorId : ℕ) (sen : Sensor)
    (recentReadings : List FlowReading) (patterns : List FlowPattern)
    (hourOfDay dayOfWeek : ℕ) (now : ℤ)
    (hmean : mean (recentReadings.map (·.flowRate)) = 0) :
    ∃ p, (calculatePipeRiskScore sensorId (some sen) recentReadings patterns
        hourOfDay dayOfWeek now).1 = some p ∧
      ("High flow variability" ∈ p.factors ↔
        10 ≤ recentReadings.length ∧ variance (recentReadings.map (·.flowRate)) ≠ 0) ∧
      0 ≤ p.riskScore ∧ p.riskScore ≤ 100 := by
  unfold calculatePipeRiskScore
  refine ⟨_, rfl, ?_, le_min ?_ (by norm_num), min_le_right _ _⟩
  · rw [hmean]
    simp only [covGtHalf, lt_self_iff_false, if_false, List.mem_append]
    split_ifs <;> simp_all
  · split_ifs <;> norm_num

/-- C7 counterexample: ten readings with zero mean flow but nonzero flow
variance (one negative and one positive reading). The coefficient-of-variation
comparison is NOT short-circuited when the mean is zero: the "High flow
variability" factor is evaluated and added (in JS the quotient is
`+Infinity > 0.5`). -/
theorem calculatePipeRiskScore_zero_mean_factor_applied :
    mean (zeroMeanReadings.map (·.flowRate)) = 0 ∧
      variance (zeroMeanReadings.map (·.flowRate)) ≠ 0 ∧
      ∃ p, (calculatePipeRiskScore 1 (some activeSensor) zeroMeanReadings [] 0 0 0).1
          = some p ∧
        "High flow variability" ∈ p.factors := by
  have h0 : mean (zeroMeanReadings.map (·.flowRate)) = 0 := by
    norm_num [zeroMeanReadings, mkReading, mean]
  have h1 : variance (zeroMeanReadings.map (·.flowRate)) = 2000 := by
    norm_num [zeroMeanReadings, mkReading, mean, variance]
  obtain ⟨p, hp, hiff, -, -⟩ :=
    riskScore_zero_mean_characterization 1 activeSensor zeroMeanReadings [] 0 0 0 h0
  refine ⟨h0, by rw [h1]; norm_num, p, hp, ?_⟩
  rw [hiff, h1]
  exact ⟨by norm_num [zeroMeanReadings], by norm_num⟩

/-- C7 amended: there is no explicit division-by-zero guard. When the mean
flow over the recent readings is 0, the "High flow variability" factor is
added exactly when there are at least 10 readings and the flow variance is
nonzero (the JS quotient is then `+Infinity`); with zero variance the JS
quotient is `NaN` and the factor is not added. In every case the returned
risk score stays within `[0, 100]`. -/
theorem calculatePipeRiskScore_zero_mean (sensorId : ℕ) (sen : Sensor)
    (recentReadings : List FlowReading) (patterns : List FlowPattern)
    (hourOfDay dayOfWeek : ℕ) (now : ℤ)
    (hmean : mean (recentReadings.map (·.flowRate)) = 0) :
    ∃ p, (calculatePipeRiskScore sensorId (some sen) recentReadings patterns
        hourOfDay dayOfWeek now).1 = some p ∧
      ("High flow variability" ∈ p.factors ↔
        10 ≤ recentReadings.length ∧ variance (recentReadings.map (·.flowRate)) ≠ 0) ∧
      0 ≤ p.riskScore ∧ p.riskScore ≤ 100 :=
  riskScore_zero_mean_characterization sensorId sen recentReadings patterns
    hourOfDay dayOfWeek now hmean

/-- Witness for C7's amended statement at the concrete zero-mean readings. -/
theorem calculatePipeRiskScore_zero_mean_witness :
    ∃ p, (calculatePipeRiskScore 1 (some activeSensor) zeroMeanReadings [] 0 0 0).1
        = some p ∧
      ("High flow variability" ∈ p.factors ↔
        10 ≤ zeroMeanReadings.length ∧
          variance (zeroMeanReadings.map (·.flowRate)) ≠ 0) ∧
      0 ≤ p.riskScore ∧ p.riskScore ≤ 100 :=
  calculatePipeRiskScore_zero_mean 1 activeSensor zeroMeanReadings [] 0 0 0
    (by norm_num [zeroMeanReadings, mkReading, mean])

/-! ## C9: analyzer side effect and alert dedup (spec-modelled wrapper) -/

/-- Helper: looking up a sensor after updating its status returns the updated
record. -/
theorem getSensorById_updateSensorStatus (sensors : List Sensor) (id : ℕ)
    (status : SensorStatus) :
    getSensorById (updateSensorStatus sensors id status) id =
      (getSensorById sensors id).map (fun s => { s with status := status }) := by
  induction sensors with
  | nil => rfl
  | cons s rest ih =>
    by_cases h : (s.id == id) = true
    · simp [getSensorById, updateSensorStatus, List.find?, h]
    · simp only [getSensorById, updateSensorStatus, List.map_cons, List.find?] at ih ⊢
      rw [if_neg h]
      simp only [h, ih]

/-- Helper: `analyzeFlowOverTime` reads only the location of the sensor record,
so two sensor records with equal locations analyze identically. -/
theorem analyzeFlowOverTime_location_congr (sensorId : ℕ) (readings : List FlowReading)
    (patterns : List FlowPattern) (hourOfDay dayOfWeek : ℕ) (s₁ s₂ : Sensor)
    (hloc : s₁.location = s₂.location) :
    analyzeFlowOverTime sensorId readings (some s₁) patterns hourOfDay dayOfWeek =
      analyzeFlowOverTime sensorId readings (some s₂) patterns hourOfDay dayOfWeek := by
  simp only [analyzeFlowOverTime]
  rw [hloc]

/-- C9: when the analyzer classifies a known sensor as leak or blockage and the
corresponding stored status differs from the sensor's current one, the wrapper
appends exactly one Alert and updates the Sensor status; and calling it again
on the resulting state is a no-op — the same result is returned, no duplicate
Alert is created, and the state is unchanged. -/
theorem analyzeWindowWithEffects_transition_dedup (sensorId : ℕ)
    (readings : List FlowReading) (patterns : List FlowPattern)
    (hourOfDay dayOfWeek : ℕ) (now : ℤ) (st : SystemState) (sen : Sensor)
    (hs : getSensorById st.sensors sensorId = some sen)
    (hstat : (analyzeFlowOverTime sensorId readings (some sen) patterns hourOfDay
        dayOfWeek).status = .leak ∨
      (analyzeFlowOverTime sensorId readings (some sen) patterns hourOfDay
        dayOfWeek).status = .blockage)
    (hdiff : toSensorStatus (analyzeFlowOverTime sensorId readings (some sen) patterns
        hourOfDay dayOfWeek).status ≠ sen.status) :
    (analyzeWindowWithEffects sensorId readings patterns hourOfDay dayOfWeek now st).2.alerts
        = st.alerts ++ [⟨sensorId,
            analysisAlertType (analyzeFlowOverTime sensorId readings (some sen) patterns
              hourOfDay dayOfWeek).status,
            (analyzeFlowOverTime sensorId readings (some sen) patterns hourOfDay
              dayOfWeek).severity,
            (analyzeFlowOverTime sensorId readings (some sen) patterns hourOfDay
              dayOfWeek).message,
            sen.location, false, false, now⟩] ∧
      getSensorById (analyzeWindowWithEffects sensorId readings patterns hourOfDay
          dayOfWeek now st).2.sensors sensorId
        = some { sen with status := toSensorStatus (analyzeFlowOverTime sensorId readings
            (some sen) patterns hourOfDay dayOfWeek).status } ∧
      analyzeWindowWithEffects sensorId readings patterns hourOfDay dayOfWeek now
          (analyzeWindowWithEffects sensorId readings patterns hourOfDay dayOfWeek now st).2
        = (analyzeFlowOverTime sensorId readings (some sen) patterns hourOfDay dayOfWeek,
          (analyzeWindowWithEffects sensorId readings patterns hourOfDay dayOfWeek now st).2) := by
  have hstep : analyzeWindowWithEffects sensorId readings patterns hourOfDay dayOfWeek now st =
      (analyzeFlowOverTime sensorId readings (some sen) patterns hourOfDay dayOfWeek,
        ⟨updateSensorStatus st.sensors sensorId
            (toSensorStatus (analyzeFlowOverTime sensorId readings (some sen) patterns
              hourOfDay dayOfWeek).status),
          createAlert st.alerts ⟨sensorId,
            analysisAlertType (analyzeFlowOverTime sensorId readings (some sen) patterns
              hourOfDay dayOfWeek).status,
            (analyzeFlowOverTime sensorId readings (some sen) patterns hourOfDay
              dayOfWeek).severity,
            (analyzeFlowOverTime sensorId readings (some sen) patterns hourOfDay
              dayOfWeek).message,
            sen.location, false, false, now⟩⟩) := by
    simp only [analyzeWindowWithEffects, hs]
    rw [if_pos ⟨hstat, hdiff⟩]
  have hsen2 : getSensorById (analyzeWindowWithEffects sensorId readings patterns
      hourOfDay dayOfWeek now st).2.sensors sensorId
      = some { sen with status := toSensorStatus (analyzeFlowOverTime sensorId readings
          (some sen) patterns hourOfDay dayOfWeek).status } := by
    rw [hstep]
    show getSensorById (updateSensorStatus st.sensors sensorId _) sensorId = _
    rw [getSensorById_updateSensorStatus, hs]
    rfl
  refine ⟨by rw [hstep]; rfl, hsen2, ?_⟩
  have hr' : analyzeFlowOverTime sensorId readings
      (some { sen with status := toSensorStatus (analyzeFlowOverTime sensorId readings
        (some sen) patterns hourOfDay dayOfWeek).status }) patterns hourOfDay dayOfWeek
      = analyzeFlowOverTime sensorId readings (some sen) patterns hourOfDay dayOfWeek :=
    analyzeFlowOverTime_location_congr sensorId readings patterns hourOfDay dayOfWeek _ _ rfl
  have hfind : getSensorById (updateSensorStatus st.sensors sensorId
      (toSensorStatus (analyzeFlowOverTime sensorId readings (some sen) patterns
        hourOfDay dayOfWeek).status)) sensorId
      = some { sen with status := toSensorStatus (analyzeFlowOverTime sensorId readings
          (some sen) patterns hourOfDay dayOfWeek).status } := by
    rw [getSensorById_updateSensorStatus, hs]
    rfl
  rw [hstep]
  simp only [analyzeWindowWithEffects, hfind, hr']
  rw [if_neg (fun h => h.2 rfl)]
/-- Witness for C9: one active sensor, three low-pressure readings — the first
call creates one alert, the second call changes nothing. -/
theorem analyzeWindowWithEffects_transition_dedup_witness :
    (analyzeWindowWithEffects 1 lowPressureReadings [] 0 0 0 initialState).2.alerts.length
        = 1 ∧
      analyzeWindowWithEffects 1 lowPressureReadings [] 0 0 0
          (analyzeWindowWithEffects 1 lowPressureReadings [] 0 0 0 initialState).2
        = (analyzeFlowOverTime 1 lowPressureReadings (some activeSensor) [] 0 0,
          (analyzeWindowWithEffects 1 lowPressureReadings [] 0 0 0 initialState).2) := by
  have hr : analyzeFlowOverTime 1 lowPressureReadings (some activeSensor) [] 0 0 =
      ⟨1, .leak, 85, "Leak detected at Upper floor. Factors: low_pressure.", .high,
        ["low_pressure"]⟩ := by
    norm_num [analyzeFlowOverTime, lowPressureReadings, mkReading, activeSensor,
      mean, variance, checkFlowAnomaly, getFlowPattern, sqrtGt, generateAnalysisMessage]
    rfl
  have h := analyzeWindowWithEffects_transition_dedup 1 lowPressureReadings [] 0 0 0 initialState activeSensor rfl
    (Or.inl (by rw [hr])) (by rw [hr]; decide)
  refine ⟨?_, h.2.2⟩
  rw [h.1]
  rfl

/-! ## C8: pattern learner run twice -/

/-- Folding plain inserts appends all rows in order. -/
theorem foldl_upsert_eq_append (rows : List FlowPattern) (store : List FlowPattern) :
    rows.foldl upsertFlowPattern store = store ++ rows := by
  induction rows generalizing store with
  | nil => simp
  | cons r rest ih => simp [upsertFlowPattern, ih]

/-- With at least 10 readings, `learnFlowPatterns` appends one fresh row per
`(dayOfWeek, hourOfDay)` group to the pattern store. -/
theorem learnFlowPatterns_append (sensorId : ℕ) (readings : List FlowReading)
    (store : List FlowPattern) (h : ¬ readings.length < 10) :
    learnFlowPatterns sensorId readings store =
      store ++ (groupByBucket readings).map (fun g => patternOfGroup sensorId g.1 g.2) := by
  rw [learnFlowPatterns, if_neg h, ← List.foldl_map, foldl_upsert_eq_append]

/-- A nonempty list repeated twice has a duplicate. -/
theorem not_nodup_append_self {α : Type} (l : List α) (h : l ≠ []) :
    ¬ (l ++ l).Nodup := by
  intro hnd
  rw [List.nodup_append] at hnd
  rcases l with _ | ⟨a, rest⟩
  · exact h rfl
  · exact hnd.2.2 (List.mem_cons_self a rest) (List.mem_cons_self a rest)

/-- C8: running `learnFlowPatterns` twice over the same twelve hourly readings
duplicates every bucket row instead of updating it — the second run appends a
second copy of all 12 rows (24 rows total) and the resulting store has
duplicate `(sensorId, hourOfDay, dayOfWeek)` bucket keys, because the
`onDuplicateKeyUpdate` merge never fires against the declared schema. -/
theorem learnFlowPatterns_duplicates_buckets :
    learnFlowPatterns 1 learnReadings (learnFlowPatterns 1 learnReadings [])
        = learnFlowPatterns 1 learnReadings [] ++ learnFlowPatterns 1 learnReadings [] ∧
      (learnFlowPatterns 1 learnReadings []).length = 12 ∧
      (learnFlowPatterns 1 learnReadings
          (learnFlowPatterns 1 learnReadings [])).length = 24 ∧
      ¬ ((learnFlowPatterns 1 learnReadings
          (learnFlowPatterns 1 learnReadings [])).map bucketKey).Nodup := by
  have h10 : ¬ learnReadings.length < 10 := by decide
  have happ := learnFlowPatterns_append 1 learnReadings [] h10
  have happ2 := learnFlowPatterns_append 1 learnReadings
    (learnFlowPatterns 1 learnReadings []) h10
  have hlen : (learnFlowPatterns 1 learnReadings []).length = 12 := by
    rw [happ]
    simp only [List.nil_append, List.length_map]
    decide
  have hdup : learnFlowPatterns 1 learnReadings (learnFlowPatterns 1 learnReadings [])
      = learnFlowPatterns 1 learnReadings [] ++ learnFlowPatterns 1 learnReadings [] := by
    rw [happ2, happ]
    simp
  refine ⟨hdup, hlen, ?_, ?_⟩
  · rw [hdup, List.length_append, hlen]
  · rw [hdup, List.map_append]
    refine not_nodup_append_self _ (fun hnil => ?_)
    have := congrArg List.length hnil
    rw [List.length_map, hlen] at this
    simp at this

end SPS
